import Mathlib

/-!
Verification of the `pi_any` downcast library (src/src/lib.rs).

The library gives trait objects held behind `Box`, `Rc` or `Arc` a downcast
API: a probe `is`, borrowing `downcast_ref` / `downcast_mut`, and a consuming
`downcast` that either retypes the wrapper or returns it unchanged.

Shallow embedding:
- A runtime value behind a trait object is a `Payload`: its runtime type
  identity (`tag`, modelling `std::any::TypeId`) and its field contents
  (`data`). Concrete types are identified with their tags (`Nat`).
- `DynAny` models the standard library operations on `dyn Any`
  (`is`, `downcast_ref`, `downcast_mut`, and the owned `downcast` on
  `Box/Rc/Arc<dyn Any>`).
- `AsAny.as_any`, `AsMutAny.as_any_mut`, `BoxAny.into_any`, `RcAny.into_any`
  and `ArcAny.into_any` model the blanket implementations at lib.rs lines
  134-172; at runtime each is the identity conversion on the payload.
- `Wrap o` is an ownership wrapper (o one of Box / Rc / Arc) holding an
  erased payload; `TypedWrap o` is the wrapper after a successful consuming
  downcast, retyped to a concrete type. Ownership preservation is type-level,
  exactly as in the Rust signatures.
- `Generated.*` are the method bodies emitted by `impl_downcast!` and
  friends (`@impl_body`, `@impl_body_mut`, `@impl_body_box/_rc/_arc`).
  The `unwrap()` inside the consuming downcast is modelled by an outer
  `Option`: `none` means the unwrap panicked.
- `emittedOps` records which method bodies each of the four macros emits in
  its `@impl_full` arm; `inject_where` models the `@inject_where` arms that
  build the where clause of the emitted impl block.
- `TypeDesc` / `ArcAnyDesc` model the static bounds of the `ArcAny` trait
  (lib.rs lines 166-172): which types the blanket impl covers and which
  marker guarantees the produced erased type carries.
-/

/-- Runtime content of a trait object: the runtime type identity of the
concrete value (modelling `TypeId`) and its field contents. -/
structure Payload where
  tag : Nat
  data : Nat
deriving DecidableEq

/-- Ownership models: `Box`, `Rc`, `Arc`. -/
inductive Ownership where
  | boxO
  | rcO
  | arcO
deriving DecidableEq

/-- An ownership wrapper holding a payload erased to a trait object. -/
structure Wrap (o : Ownership) where
  payload : Payload
deriving DecidableEq

/-- An ownership wrapper after a successful consuming downcast: statically
retyped to the concrete type `tag`, holding contents `data`. -/
structure TypedWrap (o : Ownership) where
  tag : Nat
  data : Nat
deriving DecidableEq

/-- Standard library `<dyn Any>::is::<T>()`: compares the TypeId of the
payload with the TypeId of the probed type. -/
def DynAny.is (p : Payload) (probe : Nat) : Bool :=
  decide (p.tag = probe)

/-- Standard library `<dyn Any>::downcast_ref::<T>()`. -/
def DynAny.downcast_ref (p : Payload) (probe : Nat) : Option Nat :=
  if p.tag = probe then some p.data else none

/-- Standard library `<dyn Any>::downcast_mut::<T>()`. -/
def DynAny.downcast_mut (p : Payload) (probe : Nat) : Option Nat :=
  if p.tag = probe then some p.data else none

/-- Standard library owned downcast on `Box/Rc/Arc<dyn Any>`: on a tag match
returns the same value retyped, otherwise returns the erased original. -/
def DynAny.downcast_owned (p : Payload) (probe : Nat) : Except Payload Payload :=
  if p.tag = probe then Except.ok p else Except.error p

/-- Blanket impl `impl<T: Any> AsAny for T` (lib.rs line 138): `as_any`
returns `self` unchanged. -/
def AsAny.as_any (p : Payload) : Payload := p

/-- Blanket impl `impl<T: Any> AsMutAny for T` (lib.rs line 146):
`as_any_mut` returns `self` unchanged. -/
def AsMutAny.as_any_mut (p : Payload) : Payload := p

/-- Blanket impl of `BoxAny::into_any` (lib.rs line 155): identity on the
payload. -/
def BoxAny.into_any (p : Payload) : Payload := p

/-- Blanket impl of `RcAny::into_any` (lib.rs line 163): identity on the
payload. -/
def RcAny.into_any (p : Payload) : Payload := p

/-- Blanket impl of `ArcAny::into_any` (lib.rs line 171): identity on the
payload. -/
def ArcAny.into_any (p : Payload) : Payload := p

/-- Generated `is` (macro arm `@impl_body`, lib.rs lines 253-255):
`AsAny::as_any(self).is::<T>()`. -/
def Generated.is {o : Ownership} (w : Wrap o) (probe : Nat) : Bool :=
  DynAny.is (AsAny.as_any w.payload) probe

/-- Generated `downcast_ref` (macro arm `@impl_body`, lib.rs lines 259-261):
`AsAny::as_any(self).downcast_ref::<T>()`. -/
def Generated.downcast_ref {o : Ownership} (w : Wrap o) (probe : Nat) : Option Nat :=
  DynAny.downcast_ref (AsAny.as_any w.payload) probe

/-- Generated `downcast_mut` (macro arm `@impl_body_mut`, lib.rs lines
245-247): `AsMutAny::as_any_mut(self).downcast_mut::<T>()`. -/
def Generated.downcast_mut {o : Ownership} (w : Wrap o) (probe : Nat) : Option Nat :=
  DynAny.downcast_mut (AsMutAny.as_any_mut w.payload) probe

/-- A caller obtaining `Some` from `downcast_mut` and writing `v` through the
returned mutable reference; when `downcast_mut` returns `None` nothing is
written. -/
def Generated.write {o : Ownership} (w : Wrap o) (probe v : Nat) : Wrap o :=
  match Generated.downcast_mut w probe with
  | some _ => ⟨⟨w.payload.tag, v⟩⟩
  | none => w

/-- Generated consuming `downcast` on `Box<Self>` (macro arm
`@impl_body_box`, lib.rs lines 202-210): if `self.is::<T>()` then
`Ok(BoxAny::into_any(self).downcast::<T>().unwrap())` else `Err(self)`.
The outer `Option` models the `unwrap`: `none` is a panic. -/
def Generated.downcast_box (w : Wrap Ownership.boxO) (probe : Nat) :
    Option (Except (Wrap Ownership.boxO) (TypedWrap Ownership.boxO)) :=
  if Generated.is w probe then
    match DynAny.downcast_owned (BoxAny.into_any w.payload) probe with
    | Except.ok p => some (Except.ok ⟨p.tag, p.data⟩)
    | Except.error _ => none
  else some (Except.error w)

/-- Generated consuming `downcast` on `Rc<Self>` (macro arm `@impl_body_rc`,
lib.rs lines 216-224), same shape as the Box body but through
`RcAny::into_any`. -/
def Generated.downcast_rc (w : Wrap Ownership.rcO) (probe : Nat) :
    Option (Except (Wrap Ownership.rcO) (TypedWrap Ownership.rcO)) :=
  if Generated.is w probe then
    match DynAny.downcast_owned (RcAny.into_any w.payload) probe with
    | Except.ok p => some (Except.ok ⟨p.tag, p.data⟩)
    | Except.error _ => none
  else some (Except.error w)

/-- Generated consuming `downcast` on `Arc<Self>` (macro arm
`@impl_body_arc`, lib.rs lines 230-238), same shape as the Box body but
through `ArcAny::into_any`. -/
def Generated.downcast_arc (w : Wrap Ownership.arcO) (probe : Nat) :
    Option (Except (Wrap Ownership.arcO) (TypedWrap Ownership.arcO)) :=
  if Generated.is w probe then
    match DynAny.downcast_owned (ArcAny.into_any w.payload) probe with
    | Except.ok p => some (Except.ok ⟨p.tag, p.data⟩)
    | Except.error _ => none
  else some (Except.error w)

/-- Effect on the wrapper of a consuming downcast attempt that is not taken:
when the attempt returns the mismatch alternative, the caller keeps the
wrapper carried in it; in any other outcome the wrapper is given up and this
operation is a no-op on it. -/
def Generated.keep_on_mismatch : (o : Ownership) → Wrap o → Nat → Wrap o
  | Ownership.boxO, w, probe =>
      match Generated.downcast_box w probe with
      | some (Except.error w2) => w2
      | _ => w
  | Ownership.rcO, w, probe =>
      match Generated.downcast_rc w probe with
      | some (Except.error w2) => w2
      | _ => w
  | Ownership.arcO, w, probe =>
      match Generated.downcast_arc w probe with
      | some (Except.error w2) => w2
      | _ => w

/-- One generated operation applied to a wrapper, for the invariant claim:
probing, borrowing reads, a mutation through `downcast_mut`, or a consuming
downcast attempt whose mismatch alternative is kept. -/
inductive Op where
  | probe (t : Nat)
  | readRef (t : Nat)
  | mutate (t v : Nat)
  | attemptConsume (t : Nat)

/-- State transition of one operation: `is` and `downcast_ref` take a shared
borrow and leave the wrapper as is; `mutate` writes through `downcast_mut`;
`attemptConsume` keeps the wrapper returned in the mismatch alternative. -/
def Generated.step (o : Ownership) (w : Wrap o) : Op → Wrap o
  | Op.probe _ => w
  | Op.readRef _ => w
  | Op.mutate t v => Generated.write w t v
  | Op.attemptConsume t => Generated.keep_on_mismatch o w t

/-- Running a sequence of generated operations on a wrapper. -/
def Generated.run (o : Ownership) (w : Wrap o) : List Op → Wrap o
  | [] => w
  | op :: ops => Generated.run o (Generated.step o w op) ops

/-- A constraint bound in an emitted where clause: either the injected
baseline bound `::std::any::Any + 'static`, or an author-written predicate
identified by a number. -/
inductive Bound where
  | anyStatic
  | author (id : Nat)
deriving DecidableEq

/-- One predicate of a where clause: `subject : bound`, type names numbered. -/
structure WherePred where
  subject : Nat
  bound : Bound
deriving DecidableEq

/-- The baseline bound `$ty: ::std::any::Any + 'static` injected by
`@inject_where`. -/
def baseline (t : Nat) : WherePred := ⟨t, Bound.anyStatic⟩

/-- The `@inject_where` macro arms (lib.rs lines 264-285): with no forall
types and no predicates, no where clause; with forall types and no
predicates, a baseline bound per forall type; with predicates, a baseline
bound per forall type followed by the author predicates. -/
def inject_where : List Nat → List WherePred → List WherePred
  | [], [] => []
  | ts, [] => List.map baseline ts
  | ts, p :: ps => List.map baseline ts ++ (p :: ps)

/-- Whether the author already constrains slot `t` in the predicate list. -/
def slotConstrained (preds : List WherePred) (t : Nat) : Bool :=
  preds.any (fun p => p.subject == t)

/-- Modelled from the claim wording, for comparison with `inject_where`:
inject the baseline bound only on slots that the author has not already
constrained, then the author predicates. -/
def inject_where_claim (ts : List Nat) (preds : List WherePred) : List WherePred :=
  List.map baseline (ts.filter (fun t => !(slotConstrained preds t))) ++ preds

/-- The generic and associated type shape of an interface declaration, after
the macro front-end normalizes it: the universally quantified slots and the
author constraints. -/
structure InterfaceShape where
  forallTypes : List Nat
  preds : List WherePred
deriving DecidableEq

/-- The operations the four generator macros can emit. -/
inductive GenOp where
  | op_is
  | op_downcast_ref
  | op_downcast_mut
  | op_downcast_box
  | op_downcast_rc
  | op_downcast_arc
deriving DecidableEq

/-- Which of the four generator macros the author invokes: `impl_downcast!`
(no consuming downcast), `impl_downcast_box!`, `impl_downcast_rc!`,
`impl_downcast_arc!`. -/
inductive MacroSel where
  | plain
  | selBox
  | selRc
  | selArc
deriving DecidableEq

/-- The method bodies each macro emits in its `@impl_full` arm, in source
order; the emitted set does not depend on the interface shape.
`impl_downcast!` (lines 192-195): `@impl_body` (is, downcast_ref) and
`@impl_body_mut`. `impl_downcast_box!` (lines 352-356): `@impl_body`,
`@impl_body_box`, `@impl_body_mut`. `impl_downcast_rc!` (lines 448-451):
`@impl_body` and `@impl_body_rc` only. `impl_downcast_arc!` (lines
543-546): `@impl_body` and `@impl_body_arc` only. -/
def emittedOps (_sh : InterfaceShape) : MacroSel → List GenOp
  | MacroSel.plain =>
      [GenOp.op_is, GenOp.op_downcast_ref, GenOp.op_downcast_mut]
  | MacroSel.selBox =>
      [GenOp.op_is, GenOp.op_downcast_ref, GenOp.op_downcast_box, GenOp.op_downcast_mut]
  | MacroSel.selRc =>
      [GenOp.op_is, GenOp.op_downcast_ref, GenOp.op_downcast_rc]
  | MacroSel.selArc =>
      [GenOp.op_is, GenOp.op_downcast_ref, GenOp.op_downcast_arc]

/-- Static marker properties of a concrete payload type: whether it is
static-lifetime bounded, Send, and Sync. -/
structure TypeDesc where
  isStatic : Bool
  isSend : Bool
  isSync : Bool
deriving DecidableEq

/-- Marker guarantees carried by the erased type `Arc<dyn Any + Send + Sync>`
produced by `ArcAny::into_any` (lib.rs line 167). -/
structure ArcAnyDesc where
  isSend : Bool
  isSync : Bool
deriving DecidableEq

/-- The blanket impl bound of `ArcAny` (lib.rs line 170):
`T: AsAny + 'static + Send + Sync`; `AsAny` is itself a blanket over every
`Any`, i.e. static-lifetime, type. -/
def ArcAny.available (t : TypeDesc) : Bool :=
  t.isStatic && t.isSend && t.isSync

/-- Type-level view of SharedAtomic erasure: defined exactly on types the
`ArcAny` blanket impl covers, and producing the erased type of lib.rs line
167, which itself carries Send and Sync. Absence models a compile-time
rejection of the impl, not a runtime error. -/
def ArcAny.erase_desc (t : TypeDesc) : Option ArcAnyDesc :=
  if ArcAny.available t then some ⟨true, true⟩ else none

/-- Example wrapper for witnesses: a Box-owned Foo(42) with tag 1. -/
def wBoxEx : Wrap Ownership.boxO := ⟨⟨1, 42⟩⟩

/-- Example wrapper for witnesses: an Rc-owned Foo(42) with tag 1. -/
def wRcEx : Wrap Ownership.rcO := ⟨⟨1, 42⟩⟩

/-- Example wrapper for witnesses: an Arc-owned Foo(42) with tag 1. -/
def wArcEx : Wrap Ownership.arcO := ⟨⟨1, 42⟩⟩

/-- Example interface shape for the emission counterexample: one generic
slot with one author constraint. -/
def shapeEx : InterfaceShape := ⟨[0], [⟨0, Bound.author 1⟩]⟩

/-- C1: for every ownership wrapper `w` holding a value whose runtime type
tag is `T`, the generated `is` answers by Type Tag equality: `is U` is true
iff the tag of `U` equals the tag of `T`; in particular `is T` is true, and
`is U` is false whenever `U` differs from `T`. -/
theorem c1_is_iff_tag {o : Ownership} (w : Wrap o) (T U : Nat)
    (hT : w.payload.tag = T) :
    (Generated.is w U = true ↔ U = T) ∧
    Generated.is w T = true ∧
    (U ≠ T → Generated.is w U = false) := by
  subst hT
  refine ⟨?_, ?_, ?_⟩
  · simp [Generated.is, DynAny.is, AsAny.as_any, eq_comm]
  · simp [Generated.is, DynAny.is, AsAny.as_any]
  · intro hne
    simp [Generated.is, DynAny.is, AsAny.as_any]
    exact fun h => absurd h.symm hne

/-- Witness for c1_is_iff_tag on a Box-owned Foo(42) with tag 1, probing 2. -/
theorem c1_witness :
    (Generated.is wBoxEx 2 = true ↔ (2 : Nat) = 1) ∧
    Generated.is wBoxEx 1 = true ∧
    ((2 : Nat) ≠ 1 → Generated.is wBoxEx 2 = false) :=
  c1_is_iff_tag wBoxEx 1 2 rfl

/-- C2: a consuming downcast to a non-matching type `U` on a wrapper whose
payload has tag `T` returns the mismatch alternative carrying the original
wrapper unchanged, for all three ownership models, and probing the carried
wrapper with `is T` is still true. -/
theorem c2_failed_downcast_unchanged
    (wb : Wrap Ownership.boxO) (wr : Wrap Ownership.rcO)
    (wa : Wrap Ownership.arcO) (T U : Nat)
    (hb : wb.payload.tag = T) (hr : wr.payload.tag = T)
    (ha : wa.payload.tag = T) (hne : U ≠ T) :
    Generated.downcast_box wb U = some (Except.error wb) ∧
    Generated.downcast_rc wr U = some (Except.error wr) ∧
    Generated.downcast_arc wa U = some (Except.error wa) ∧
    Generated.is wb T = true ∧ Generated.is wr T = true ∧
    Generated.is wa T = true := by
  have hTU : T ≠ U := fun h => hne h.symm
  refine ⟨?_, ?_, ?_, ?_, ?_, ?_⟩ <;>
    simp [Generated.downcast_box, Generated.downcast_rc,
      Generated.downcast_arc, Generated.is, DynAny.is, AsAny.as_any,
      hb, hr, ha, hTU]

/-- Witness for c2_failed_downcast_unchanged: wrappers holding Foo(42) with
tag 1, probed with Bar whose tag is 2. -/
theorem c2_witness :
    Generated.downcast_box wBoxEx 2 = some (Except.error wBoxEx) ∧
    Generated.downcast_rc wRcEx 2 = some (Except.error wRcEx) ∧
    Generated.downcast_arc wArcEx 2 = some (Except.error wArcEx) ∧
    Generated.is wBoxEx 1 = true ∧ Generated.is wRcEx 1 = true ∧
    Generated.is wArcEx 1 = true :=
  c2_failed_downcast_unchanged wBoxEx wRcEx wArcEx 1 2 rfl rfl rfl
    (by decide)

/-- C3: a consuming downcast to the held type `T` succeeds for all three
ownership models, and the successful result stays in the same ownership
model (Box to Box, Rc to Rc, Arc to Arc, by the types of the three
operations) retyped to `T`, with the contained value equal to the original
payload contents. -/
theorem c3_downcast_success_identity
    (wb : Wrap Ownership.boxO) (wr : Wrap Ownership.rcO)
    (wa : Wrap Ownership.arcO) (T : Nat)
    (hb : wb.payload.tag = T) (hr : wr.payload.tag = T)
    (ha : wa.payload.tag = T) :
    Generated.downcast_box wb T = some (Except.ok ⟨T, wb.payload.data⟩) ∧
    Generated.downcast_rc wr T = some (Except.ok ⟨T, wr.payload.data⟩) ∧
    Generated.downcast_arc wa T = some (Except.ok ⟨T, wa.payload.data⟩) := by
  refine ⟨?_, ?_, ?_⟩ <;>
    simp [Generated.downcast_box, Generated.downcast_rc,
      Generated.downcast_arc, Generated.is, DynAny.is, AsAny.as_any,
      DynAny.downcast_owned, BoxAny.into_any, RcAny.into_any,
      ArcAny.into_any, hb, hr, ha]

/-- Witness for c3_downcast_success_identity: wrappers holding Foo(42) with
tag 1, downcast to tag 1. -/
theorem c3_witness :
    Generated.downcast_box wBoxEx 1 = some (Except.ok ⟨1, 42⟩) ∧
    Generated.downcast_rc wRcEx 1 = some (Except.ok ⟨1, 42⟩) ∧
    Generated.downcast_arc wArcEx 1 = some (Except.ok ⟨1, 42⟩) :=
  c3_downcast_success_identity wBoxEx wRcEx wArcEx 1 rfl rfl rfl

/-- C4: on every ownership wrapper, `downcast_ref T` returns a present
reference exactly when `is T` is true, and a present reference always
refers to the original payload contents; the wrapper itself is untouched,
the operation being a function of a shared borrow. -/
theorem c4_downcast_ref_iff_is {o : Ownership} (w : Wrap o) (T : Nat) :
    ((Generated.downcast_ref w T).isSome = true ↔ Generated.is w T = true) ∧
    (∀ v, Generated.downcast_ref w T = some v → v = w.payload.data) := by
  constructor
  · by_cases h : w.payload.tag = T <;>
      simp [Generated.downcast_ref, Generated.is, DynAny.downcast_ref,
        DynAny.is, AsAny.as_any, h]
  · intro v hv
    by_cases h : w.payload.tag = T <;>
      simp [Generated.downcast_ref, DynAny.downcast_ref, AsAny.as_any, h]
        at hv
    exact hv.symm

/-- Witness for c4_downcast_ref_iff_is on a Box-owned Foo(42) with tag 1. -/
theorem c4_witness :
    ((Generated.downcast_ref wBoxEx 1).isSome = true ↔
      Generated.is wBoxEx 1 = true) ∧
    (∀ v, Generated.downcast_ref wBoxEx 1 = some v → v = wBoxEx.payload.data) :=
  c4_downcast_ref_iff_is wBoxEx 1

/-- C5: on a wrapper whose payload has tag `T`, writing `v` through the
reference returned by `downcast_mut T` is visible to a subsequent
`downcast_ref T` on the same wrapper, which returns `v`. -/
theorem c5_mut_then_ref {o : Ownership} (w : Wrap o) (T v : Nat)
    (hT : w.payload.tag = T) :
    Generated.downcast_ref (Generated.write w T v) T = some v := by
  subst hT
  simp [Generated.write, Generated.downcast_mut, Generated.downcast_ref,
    DynAny.downcast_mut, DynAny.downcast_ref, AsAny.as_any,
    AsMutAny.as_any_mut]

/-- Witness for c5_mut_then_ref: writing 54 into a Box-owned Foo(42) with
tag 1 and reading it back. -/
theorem c5_witness :
    Generated.downcast_ref (Generated.write wBoxEx 1 54) 1 = some 54 :=
  c5_mut_then_ref wBoxEx 1 54 rfl

/-- C6 counterexample: the claim that `downcast_mut` is emitted for every
ownership selection fails at a concrete input: for the example shape, the
Rc-selecting generator `impl_downcast_rc!` does not emit `downcast_mut`,
and neither does the Arc-selecting one. -/
theorem c6_counterexample :
    GenOp.op_downcast_mut ∉ emittedOps shapeEx MacroSel.selRc ∧
    GenOp.op_downcast_mut ∉ emittedOps shapeEx MacroSel.selArc := by
  decide

/-- C6 amended: for every interface shape and every generator selection, the
probe operations `is` and `downcast_ref` are always emitted, but
`downcast_mut` is emitted exactly when the selection is the plain generator
(no consuming downcast) or the Box generator; the Rc and Arc generators
omit it. -/
theorem c6_ops_emitted (sh : InterfaceShape) (sel : MacroSel) :
    GenOp.op_is ∈ emittedOps sh sel ∧
    GenOp.op_downcast_ref ∈ emittedOps sh sel ∧
    (GenOp.op_downcast_mut ∈ emittedOps sh sel ↔
      (sel = MacroSel.plain ∨ sel = MacroSel.selBox)) := by
  cases sel <;> simp [emittedOps]

/-- Witness for c6_ops_emitted at the example shape and the Rc selection. -/
theorem c6_witness :
    GenOp.op_is ∈ emittedOps shapeEx MacroSel.selRc ∧
    GenOp.op_downcast_ref ∈ emittedOps shapeEx MacroSel.selRc ∧
    (GenOp.op_downcast_mut ∈ emittedOps shapeEx MacroSel.selRc ↔
      (MacroSel.selRc = MacroSel.plain ∨ MacroSel.selRc = MacroSel.selBox)) :=
  c6_ops_emitted shapeEx MacroSel.selRc

/-- C7 counterexample: the claim that author-constrained slots receive no
injected baseline bound fails at a concrete input: slot 0 is constrained by
the author predicate, yet the emitted where clause contains the injected
baseline bound on slot 0, so it differs from the clause the claim
describes. -/
theorem c7_counterexample :
    slotConstrained [⟨0, Bound.author 1⟩] 0 = true ∧
    baseline 0 ∈ inject_where [0] [⟨0, Bound.author 1⟩] ∧
    inject_where [0] [⟨0, Bound.author 1⟩] ≠
      inject_where_claim [0] [⟨0, Bound.author 1⟩] := by
  refine ⟨rfl, ?_, ?_⟩ <;> decide

/-- C7 amended: `@inject_where` injects the baseline bound on every
universally quantified slot, whether or not the author already constrains
it: the emitted constraint list is a baseline bound per forall slot
followed by the author predicates. -/
theorem c7_inject_all_slots (ts : List Nat) (preds : List WherePred) :
    inject_where ts preds = List.map baseline ts ++ preds := by
  cases ts <;> cases preds <;> simp [inject_where]

/-- Witness for c7_inject_all_slots at the counterexample input. -/
theorem c7_witness :
    inject_where [0] [⟨0, Bound.author 1⟩] =
      List.map baseline [0] ++ [⟨0, Bound.author 1⟩] :=
  c7_inject_all_slots [0] [⟨0, Bound.author 1⟩]

/-- C8: no generated operation panics. The consuming downcast of each
ownership model never reaches the panic of its internal `unwrap` (the
result is always present), because the `unwrap` sits under the `is` guard;
and `is` / `downcast_ref` signal a mismatch only through the absence
marker: on a false probe, `downcast_ref` is `none` and the consuming
downcast is the mismatch alternative with the original wrapper. -/
theorem c8_no_panic (wb : Wrap Ownership.boxO) (wr : Wrap Ownership.rcO)
    (wa : Wrap Ownership.arcO) (T : Nat) :
    (Generated.downcast_box wb T).isSome = true ∧
    (Generated.downcast_rc wr T).isSome = true ∧
    (Generated.downcast_arc wa T).isSome = true ∧
    (Generated.is wb T = false → Generated.downcast_ref wb T = none) ∧
    (Generated.is wb T = false →
      Generated.downcast_box wb T = some (Except.error wb)) := by
  refine ⟨?_, ?_, ?_, ?_, ?_⟩
  · by_cases h : wb.payload.tag = T <;>
      simp [Generated.downcast_box, Generated.is, DynAny.is, AsAny.as_any,
        DynAny.downcast_owned, BoxAny.into_any, h]
  · by_cases h : wr.payload.tag = T <;>
      simp [Generated.downcast_rc, Generated.is, DynAny.is, AsAny.as_any,
        DynAny.downcast_owned, RcAny.into_any, h]
  · by_cases h : wa.payload.tag = T <;>
      simp [Generated.downcast_arc, Generated.is, DynAny.is, AsAny.as_any,
        DynAny.downcast_owned, ArcAny.into_any, h]
  · intro h
    simp [Generated.is, DynAny.is, AsAny.as_any] at h
    simp [Generated.downcast_ref, DynAny.downcast_ref, AsAny.as_any, h]
  · intro h
    simp [Generated.is, DynAny.is, AsAny.as_any] at h
    simp [Generated.downcast_box, Generated.is, DynAny.is, AsAny.as_any, h]

/-- Witness for c8_no_panic on the example wrappers, probing tag 2. -/
theorem c8_witness :
    (Generated.downcast_box wBoxEx 2).isSome = true ∧
    (Generated.downcast_rc wRcEx 2).isSome = true ∧
    (Generated.downcast_arc wArcEx 2).isSome = true ∧
    (Generated.is wBoxEx 2 = false → Generated.downcast_ref wBoxEx 2 = none) ∧
    (Generated.is wBoxEx 2 = false →
      Generated.downcast_box wBoxEx 2 = some (Except.error wBoxEx)) :=
  c8_no_panic wBoxEx wRcEx wArcEx 2

/-- C9: the `ArcAny` blanket impl covers a payload type exactly when it is
static-lifetime bounded, Send and Sync, and the erased form it produces
always carries Send and Sync; on types violating the precondition the
erasure is simply absent (the impl does not exist), never a runtime
error. -/
theorem c9_arc_requires_send_sync (t : TypeDesc) :
    ((ArcAny.erase_desc t).isSome = true ↔
      (t.isStatic && t.isSend && t.isSync) = true) ∧
    (∀ e, ArcAny.erase_desc t = some e →
      e.isSend = true ∧ e.isSync = true) := by
  constructor
  · by_cases h : (t.isStatic && t.isSend && t.isSync) = true <;>
      simp [ArcAny.erase_desc, ArcAny.available, h]
  · intro e he
    by_cases h : (t.isStatic && t.isSend && t.isSync) = true <;>
      simp [ArcAny.erase_desc, ArcAny.available, h] at he
    simp [← he]

/-- Witness for c9_arc_requires_send_sync on a static, Send, Sync type. -/
theorem c9_witness :
    ((ArcAny.erase_desc ⟨true, true, true⟩).isSome = true ↔
      ((true : Bool) && true && true) = true) ∧
    (∀ e, ArcAny.erase_desc ⟨true, true, true⟩ = some e →
      e.isSend = true ∧ e.isSync = true) :=
  c9_arc_requires_send_sync ⟨true, true, true⟩

/-- Helper: a consuming downcast attempt whose mismatch alternative is kept
leaves the wrapper literally unchanged: the mismatch branch of every
downcast body returns `self`. -/
theorem keep_on_mismatch_eq (o : Ownership) (w : Wrap o) (t : Nat) :
    Generated.keep_on_mismatch o w t = w := by
  cases o <;>
  · by_cases h : w.payload.tag = t <;>
      simp [Generated.keep_on_mismatch, Generated.downcast_box,
        Generated.downcast_rc, Generated.downcast_arc, Generated.is,
        DynAny.is, AsAny.as_any, DynAny.downcast_owned, BoxAny.into_any,
        RcAny.into_any, ArcAny.into_any, h]

/-- Helper: writing through `downcast_mut` never changes the runtime type
tag of the payload, only its contents. -/
theorem write_tag (o : Ownership) (w : Wrap o) (t v : Nat) :
    (Generated.write w t v).payload.tag = w.payload.tag := by
  by_cases h : w.payload.tag = t <;>
    simp [Generated.write, Generated.downcast_mut, DynAny.downcast_mut,
      AsMutAny.as_any_mut, h]

/-- Helper: no single generated operation changes the payload tag. -/
theorem step_tag (o : Ownership) (w : Wrap o) (op : Op) :
    (Generated.step o w op).payload.tag = w.payload.tag := by
  cases op with
  | probe t => rfl
  | readRef t => rfl
  | mutate t v => exact write_tag o w t v
  | attemptConsume t => rw [Generated.step, keep_on_mismatch_eq]

/-- Helper: running any sequence of generated operations preserves the
payload tag. -/
theorem run_tag (o : Ownership) (ops : List Op) (w : Wrap o) :
    (Generated.run o w ops).payload.tag = w.payload.tag := by
  induction ops generalizing w with
  | nil => rfl
  | cons op ops ih => rw [Generated.run, ih, step_tag]

/-- C10: the runtime Type Tag of the payload is an invariant of every
sequence of generated operations — probes, reads, mutations through
`downcast_mut`, and consuming downcast attempts whose mismatch alternative
is kept — so `is T` answers the same before and after any such sequence. -/
theorem c10_tag_invariant (o : Ownership) (w : Wrap o) (ops : List Op)
    (T : Nat) :
    (Generated.run o w ops).payload.tag = w.payload.tag ∧
    Generated.is (Generated.run o w ops) T = Generated.is w T := by
  refine ⟨run_tag o ops w, ?_⟩
  simp [Generated.is, DynAny.is, AsAny.as_any, run_tag o ops w]

/-- Witness for c10_tag_invariant: a mixed sequence of operations on a
Box-owned Foo(42) with tag 1, probing tag 1 afterwards. -/
theorem c10_witness :
    (Generated.run Ownership.boxO wBoxEx
        [Op.probe 2, Op.readRef 1, Op.mutate 1 54,
          Op.attemptConsume 2]).payload.tag = wBoxEx.payload.tag ∧
    Generated.is (Generated.run Ownership.boxO wBoxEx
        [Op.probe 2, Op.readRef 1, Op.mutate 1 54,
          Op.attemptConsume 2]) 1 = Generated.is wBoxEx 1 :=
  c10_tag_invariant Ownership.boxO wBoxEx
    [Op.probe 2, Op.readRef 1, Op.mutate 1 54, Op.attemptConsume 2] 1
